import Mathlib

/-!
Shallow embedding of `src/analyzer/static/analyzer/js/script.js`.

The script wires up a browser page: file selection (picker + drag and drop),
submission of the selected audio file to a scoring endpoint, and rendering of
the returned stress score with a per-feature breakdown.

Modelling choices:
* The DOM elements the script mutates become fields of `DomState`.
  Inline style widths (`score-fill`, per-feature fill bars) are kept as exact
  rational values (JS numbers are modelled by `ℚ`); display strings produced
  by `toFixed` are modelled by `qToFixed`, the decimal rounding `toFixed`
  performs.
* Side effects that leave the page (`alert`, the `fetch` POST,
  `console.error`) are collected in an effect list.
* The asynchronous submission splits in two: the synchronous prefix of the
  click handler up to the `fetch` call, and `resolveFetch`, the
  `.then/.then/.catch/.finally` continuation run when the exchange settles.
  A ghost flag `inFlight` in `PageState` records a pending exchange.
* Browser event semantics that the script relies on are part of the model:
  a `click` event on a button whose `disabled` attribute is set does not run
  the click handler.
-/

/-- A file-like object as the handlers see it: `file.type` and `file.name`. -/
structure JsFile where
  ftype : String
  name : String
deriving DecidableEq, Repr

/-- One rendered feature entry appended to `features-container`:
the humanized name `<span>`, the percentage text `<span>`, and the
`feature-fill` width (in percent, as the exact number the script computes). -/
structure FeatureView where
  displayName : String
  percentText : String
  fillWidth : ℚ
deriving DecidableEq, Repr

/-- The DOM state the script reads or writes. -/
structure DomState where
  /-- module-level `currentFile` variable -/
  currentFile : Option JsFile
  /-- `selected-file` label text -/
  selectedFileText : String
  /-- `analyze-btn`.disabled -/
  analyzeBtnDisabled : Bool
  /-- `loading`.style.display -/
  loadingDisplay : String
  /-- `result-container`.style.display -/
  resultDisplay : String
  /-- `score-value`.textContent -/
  scoreValueText : String
  /-- `score-fill`.style.width, in percent -/
  scoreFillWidth : ℚ
  /-- `score-interpretation`.textContent -/
  interpretationText : String
  /-- children of `features-container` -/
  featuresChildren : List FeatureView
  /-- `drop-zone`.style.background -/
  dropZoneBackground : String
  /-- `drop-zone`.style.borderColor -/
  dropZoneBorder : String
deriving DecidableEq, Repr

/-- Externally visible side effects of a handler invocation. -/
inductive Effect where
  /-- a blocking `alert(msg)` -/
  | alert (msg : String)
  /-- the `fetch` POST of the multipart form to `uploadForm.action` -/
  | request
  /-- a `console.error` diagnostic -/
  | consoleError
deriving DecidableEq, Repr

/-- Parsed JSON body of a well-formed server response
(`data.success`, `data.score`, `data.features`, `data.errors`, `data.error`).
A JSON object is modelled as an association list in insertion order
(feature names are not array indices, so `Object.entries` iterates them in
insertion order). String fields that may be absent are `Option`s. -/
structure ServerData where
  success : Bool
  score : ℚ
  features : List (String × ℚ)
  errors : Option String
  error : Option String
deriving DecidableEq, Repr

/-- How the `fetch` exchange settles: a well-formed JSON body, a rejection of
`response.json()` (malformed body), or a network failure rejecting `fetch`
itself. The latter two reach the `.catch` handler. -/
inductive FetchOutcome where
  | ok (data : ServerData)
  | jsonError
  | networkError
deriving DecidableEq, Repr

/-- JS string conversion of a possibly-absent value, as string concatenation
performs it: `undefined` prints as `"undefined"`. -/
def jsText : Option String → String
  | some t => t
  | none => "undefined"

/-- `data.errors || data.error` followed by string conversion: `||` takes
`errors` when it is truthy (present and non-empty), else falls through to
`error`. -/
def jsOrText (errors error : Option String) : String :=
  match errors with
  | some s => if s = "" then jsText error else s
  | none => jsText error

/-- `q * n` for a natural scale factor, computed on the numerator so that it
evaluates by kernel reduction (the script scales scores and contributions by
`100`). -/
def qMulNat (q : ℚ) (n : Nat) : ℚ :=
  mkRat (q.num * n) q.den

/-- Left-pad a numeral string with zeros to `d` digits. -/
def natPad (d : Nat) (s : String) : String :=
  String.mk (List.replicate (d - s.length) '0') ++ s

/-- `Number.prototype.toFixed(d)` on `ℚ`: round `q` to the nearest multiple
of `10 ^ (-d)`, ties toward positive infinity
(`⌊q * 10 ^ d + 1 / 2⌋` computed as an integer floor division), then print
with exactly `d` decimal digits. -/
def qToFixed (d : Nat) (q : ℚ) : String :=
  let n : ℤ := Int.fdiv (2 * q.num * (10 : ℤ) ^ d + (q.den : ℤ)) (2 * (q.den : ℤ))
  let m : Nat := n.natAbs
  let ip : Nat := m / 10 ^ d
  let fp : Nat := m % 10 ^ d
  (if n < 0 then "-" else "") ++ toString ip ++
    (if d = 0 then "" else "." ++ natPad d (toString fp))

/-- JS `String.prototype.startsWith(pre)`, as a character-list prefix
test. -/
def strStartsWith (s pre : String) : Bool :=
  pre.data.isPrefixOf s.data

/-- JS `\w`: ASCII letters, digits and underscore. -/
def isWordChar (c : Char) : Bool :=
  c.isAlpha || c.isDigit || c == '_'

/-- Uppercase every word character standing at a word boundary, tracking
whether the previous character was a word character. -/
def capWordsAux : Bool → List Char → List Char
  | _, [] => []
  | prevW, c :: cs =>
      (if isWordChar c && !prevW then c.toUpper else c) :: capWordsAux (isWordChar c) cs

/-- `.replace(/\b\w/g, l => l.toUpperCase())`: uppercase each word character
preceded by start-of-string or a non-word character. -/
def capWordBounds (s : String) : String :=
  String.mk (capWordsAux false s.data)

/-- `.replace(/_/g, ' ')`: every underscore becomes a space (a one-character
pattern with a one-character replacement is a character map). -/
def underscoresToSpaces (s : String) : String :=
  String.mk (s.data.map fun c => if c = '_' then ' ' else c)

/-- `feature.replace(/_/g, ' ').replace(/\b\w/g, l => l.toUpperCase())`. -/
def humanize (s : String) : String :=
  capWordBounds (underscoresToSpaces s)

/-- `score < 0.3 → 'Low Stress'; score < 0.6 → 'Moderate Stress';
else 'High Stress'` (script lines 109–115; `mkRat a b` is the rational
`a / b`). -/
def scoreLabel (score : ℚ) : String :=
  if score < mkRat 3 10 then "Low Stress"
  else if score < mkRat 6 10 then "Moderate Stress"
  else "High Stress"

/-- The feature element built inside the `Object.entries` loop
(script lines 120–137). -/
def renderFeature (kv : String × ℚ) : FeatureView :=
  { displayName := humanize kv.1
  , percentText := qToFixed 1 (qMulNat kv.2 100) ++ "%"
  , fillWidth := qMulNat kv.2 100 }

/-- `updateResults(score, features)` (script lines 101–149): set the score
text, fill width and interpretation, clear `features-container` and rebuild
it from `Object.entries(features)`, then show the result container.
The trailing `setTimeout` animation pass rewrites each `feature-fill` width
to its current value, leaving the state unchanged, and is omitted. -/
def updateResults (score : ℚ) (features : List (String × ℚ)) (s : DomState) : DomState :=
  { s with
      scoreValueText := qToFixed 2 score
      scoreFillWidth := qMulNat score 100
      interpretationText := scoreLabel score
      featuresChildren := features.map renderFeature
      resultDisplay := "block" }

/-- `handleFileSelection(file)` (script lines 89–99): reject non-audio media
types with an alert, otherwise store the file, set the label and enable the
analyze button. -/
def handleFileSelection (file : JsFile) (s : DomState) : DomState × List Effect :=
  if strStartsWith file.ftype "audio/" then
    ({ s with
        currentFile := some file
        selectedFileText := "Selected file: " ++ file.name
        analyzeBtnDisabled := false }, [])
  else
    (s, [Effect.alert "Please upload an audio file"])

/-- The two `.then` handlers, the `.catch` and the `.finally` of the
submission (script lines 71–86), run when the exchange settles.
`.catch` receives both `fetch` rejections and `response.json()` rejections;
`.finally` runs after every path. -/
def resolveFetch (s : DomState) (o : FetchOutcome) : DomState × List Effect :=
  let handled : DomState × List Effect :=
    match o with
    | FetchOutcome.ok data =>
        if data.success then
          (updateResults data.score data.features s, [])
        else
          (s, [Effect.alert ("Error processing file: " ++ jsOrText data.errors data.error)])
    | FetchOutcome.jsonError =>
        (s, [Effect.consoleError, Effect.alert "An error occurred while processing the file."])
    | FetchOutcome.networkError =>
        (s, [Effect.consoleError, Effect.alert "An error occurred while processing the file."])
  ({ handled.1 with loadingDisplay := "none", analyzeBtnDisabled := false }, handled.2)

/-- Page state: the DOM plus a ghost flag recording that a `fetch` is
pending (between the click handler's `fetch` call and the settlement of its
promise chain). -/
structure PageState where
  dom : DomState
  inFlight : Bool
deriving DecidableEq, Repr

/-- The discrete inputs the script reacts to. `fetchResolved` is the
settlement of the pending exchange. -/
inductive Event where
  | change (files : List JsFile)
  | drop (files : List JsFile)
  | dragOver
  | dragLeave
  | clickAnalyze
  | fetchResolved (o : FetchOutcome)
deriving DecidableEq, Repr

/-- One step of the page. `change` (lines 24–28) and `drop` (lines 42–50)
run `handleFileSelection` only on a non-empty file list; `drop` first resets
the drop-zone styles. `dragOver`/`dragLeave` (lines 31–40) only restyle the
drop zone. `clickAnalyze`: a click on a disabled button does not run the
handler; the handler (lines 53–70) returns without a selected file, else
shows loading, hides results, disables the button and issues the POST.
`fetchResolved` runs the promise-chain continuation. -/
def step (p : PageState) (e : Event) : PageState × List Effect :=
  match e with
  | Event.change files =>
      match files with
      | [] => (p, [])
      | f :: _ =>
          let r := handleFileSelection f p.dom
          ({ p with dom := r.1 }, r.2)
  | Event.drop files =>
      let d := { p.dom with dropZoneBackground := "#f8f9fa", dropZoneBorder := "#3498db" }
      match files with
      | [] => ({ p with dom := d }, [])
      | f :: _ =>
          let r := handleFileSelection f d
          ({ p with dom := r.1 }, r.2)
  | Event.dragOver =>
      ({ p with dom :=
          { p.dom with dropZoneBackground := "#e3f2fd", dropZoneBorder := "#2196f3" } }, [])
  | Event.dragLeave =>
      ({ p with dom :=
          { p.dom with dropZoneBackground := "#f8f9fa", dropZoneBorder := "#3498db" } }, [])
  | Event.clickAnalyze =>
      if p.dom.analyzeBtnDisabled then (p, [])
      else
        match p.dom.currentFile with
        | none => (p, [])
        | some _ =>
            ({ dom :=
                { p.dom with
                    loadingDisplay := "block"
                    resultDisplay := "none"
                    analyzeBtnDisabled := true }
               inFlight := true }, [Effect.request])
  | Event.fetchResolved o =>
      if p.inFlight then
        let r := resolveFetch p.dom o
        ({ dom := r.1, inFlight := false }, r.2)
      else (p, [])

/-! Concrete fixtures used by witnesses and counterexamples. -/

/-- A page whose DOM fields hold definite values: no file selected, analyze
button disabled, loading hidden, results hidden. -/
def baseDom : DomState :=
  { currentFile := none
  , selectedFileText := ""
  , analyzeBtnDisabled := true
  , loadingDisplay := "none"
  , resultDisplay := "none"
  , scoreValueText := ""
  , scoreFillWidth := 0
  , interpretationText := ""
  , featuresChildren := []
  , dropZoneBackground := "#f8f9fa"
  , dropZoneBorder := "#3498db" }

/-- `baseDom` with no exchange pending. -/
def basePage : PageState := { dom := baseDom, inFlight := false }

/-- An audio file. -/
def wavFile : JsFile := { ftype := "audio/wav", name := "recording.wav" }

/-- A non-audio file. -/
def textFile : JsFile := { ftype := "text/plain", name := "notes.txt" }

/-- A page showing a previously rendered result for `wavFile`
(score 0.75, one feature), idle, submit enabled. -/
def visibleDom : DomState :=
  { currentFile := some wavFile
  , selectedFileText := "Selected file: recording.wav"
  , analyzeBtnDisabled := false
  , loadingDisplay := "none"
  , resultDisplay := "block"
  , scoreValueText := "0.75"
  , scoreFillWidth := 75
  , interpretationText := "High Stress"
  , featuresChildren := [{ displayName := "Pitch Variance", percentText := "40.0%", fillWidth := 40 }]
  , dropZoneBackground := "#f8f9fa"
  , dropZoneBorder := "#3498db" }

/-- `visibleDom` with no exchange pending. -/
def visiblePage : PageState := { dom := visibleDom, inFlight := false }

/-- A server rejection carrying only the generic `error` field. -/
def failData : ServerData :=
  { success := false, score := 0, features := [], errors := none, error := some "bad file" }

/-- `basePage` after selecting `wavFile` and clicking analyze:
the exchange is pending and the button is disabled. -/
def pageAfterSubmit : PageState :=
  (step (step basePage (Event.change [wavFile])).1 Event.clickAnalyze).1

/-- `pageAfterSubmit` after the user selects `wavFile` again while the
exchange is still pending: the selection handler re-enables the button. -/
def pageReselected : PageState :=
  (step pageAfterSubmit (Event.change [wavFile])).1

/-- `basePage` after a `dragover` highlighted the drop zone. -/
def highlightedPage : PageState := (step basePage Event.dragOver).1

/-- A full submission round trip: the analyze click followed by the
settlement of the exchange. -/
def submitExchange (p : PageState) (o : FetchOutcome) : PageState × List Effect :=
  step (step p Event.clickAnalyze).1 (Event.fetchResolved o)

/-! Supporting lemmas. -/

/-- `qMulNat` is multiplication by the natural number. -/
theorem qMulNat_eq (q : ℚ) (n : Nat) : qMulNat q n = q * n := by
  rw [qMulNat, Rat.mkRat_eq_div]
  push_cast
  rw [mul_div_right_comm, Rat.num_div_den]

/-- The branch constants of `scoreLabel` are the script's literals
`0.3` and `0.6`. -/
theorem scoreLabel_thresholds : mkRat 3 10 = (3 : ℚ) / 10 ∧ mkRat 6 10 = (6 : ℚ) / 10 := by
  constructor <;> rw [Rat.mkRat_eq_div] <;> norm_num

/-! Claim theorems. -/

/-- C1 counterexample: from the concrete reachable state `pageReselected`
the exchange started by the first click is still pending
(`inFlight = true`), yet clicking analyze issues a second network request
and mutates the UI (the button is disabled again), because an intervening
file selection re-enabled the button and the click handler checks only
`currentFile`, not any in-flight state. -/
theorem c1_inflight_click_not_noop :
    pageReselected.inFlight = true ∧
    (step pageReselected Event.clickAnalyze).2 = [Effect.request] ∧
    (step pageReselected Event.clickAnalyze).1.dom ≠ pageReselected.dom := by
  refine ⟨by decide, by decide, by decide⟩

/-- C1 (amended): a click on the analyze button is a no-op — no request, no
state change, no UI mutation — whenever the button's `disabled` attribute is
set, which is the state the click handler establishes when a submission
starts; the handler itself has no in-flight guard, so the no-op holds only
while no intervening file selection has re-enabled the button. -/
theorem c1_disabled_click_is_noop (p : PageState)
    (h : p.dom.analyzeBtnDisabled = true) :
    step p Event.clickAnalyze = (p, []) := by
  simp [step, h]

/-- C1 witness: in the concrete state right after a submission starts
(`pageAfterSubmit`, which is in flight and disabled), a click changes
nothing and issues nothing. -/
theorem c1_disabled_click_is_noop_witness :
    pageAfterSubmit.dom.analyzeBtnDisabled = true ∧
    pageAfterSubmit.inFlight = true ∧
    step pageAfterSubmit Event.clickAnalyze = (pageAfterSubmit, []) :=
  ⟨by decide, by decide, c1_disabled_click_is_noop pageAfterSubmit (by decide)⟩

/-- C5: a candidate file whose media type does not start with `audio/` is
rejected with the blocking alert `Please upload an audio file`, and the
entire DOM state — held file, label, button enablement and everything
else — is exactly what it was before the call. -/
theorem c5_reject_non_audio (f : JsFile) (s : DomState)
    (h : strStartsWith f.ftype "audio/" = false) :
    handleFileSelection f s = (s, [Effect.alert "Please upload an audio file"]) := by
  simp [handleFileSelection, h]

/-- C5 witness: the rejection at the concrete non-audio file `textFile` from
the concrete state `baseDom`. -/
theorem c5_reject_non_audio_witness :
    strStartsWith textFile.ftype "audio/" = false ∧
    handleFileSelection textFile baseDom =
      (baseDom, [Effect.alert "Please upload an audio file"]) :=
  ⟨by decide, c5_reject_non_audio textFile baseDom (by decide)⟩

/-- C7: rendering is idempotent — rendering the same `(score, features)`
twice in succession yields exactly the state of rendering it once, because
every render overwrites the score fields and rebuilds the feature list from
scratch in the insertion order of `features`. -/
theorem c7_render_idempotent (score : ℚ) (features : List (String × ℚ)) (s : DomState) :
    updateResults score features (updateResults score features s) =
      updateResults score features s := rfl

/-- C8: an accepted file selection unconditionally enables the analyze
button: on any page state — including one whose exchange is in flight —
selecting an audio file through either entry point leaves the button
enabled; no in-flight state is consulted. -/
theorem c8_selection_enables_submit (f : JsFile) (p : PageState)
    (h : strStartsWith f.ftype "audio/" = true) :
    (step p (Event.change [f])).1.dom.analyzeBtnDisabled = false ∧
    (step p (Event.drop [f])).1.dom.analyzeBtnDisabled = false ∧
    (step p (Event.change [f])).1.inFlight = p.inFlight := by
  refine ⟨?_, ?_, ?_⟩ <;> simp [step, handleFileSelection, h]

/-- C8 witness: selecting `wavFile` in the concrete in-flight state
`pageAfterSubmit` re-enables the button while the exchange is pending. -/
theorem c8_selection_enables_submit_witness :
    strStartsWith wavFile.ftype "audio/" = true ∧
    pageAfterSubmit.inFlight = true ∧
    (step pageAfterSubmit (Event.change [wavFile])).1.dom.analyzeBtnDisabled = false :=
  ⟨by decide, by decide,
    (c8_selection_enables_submit wavFile pageAfterSubmit (by decide)).1⟩

/-- C9 counterexample: a drop event with an empty file list is not free of
UI mutation — from the concrete highlighted state `highlightedPage` (after a
`dragover`), the empty drop resets the drop zone background from `#e3f2fd`
to `#f8f9fa`, although it emits no alert. -/
theorem c9_empty_drop_restyles :
    highlightedPage.dom.dropZoneBackground = "#e3f2fd" ∧
    (step highlightedPage (Event.drop [])).2 = [] ∧
    (step highlightedPage (Event.drop [])).1.dom.dropZoneBackground = "#f8f9fa" ∧
    (step highlightedPage (Event.drop [])).1.dom ≠ highlightedPage.dom := by
  refine ⟨by decide, by decide, by decide, by decide⟩

/-- C9 (amended): on an empty file list the selection routine is never
invoked: an empty change event is a complete no-op, and an empty drop event
shows no alert, issues nothing, and leaves the selection state (held file,
label, button) and all rendering state unchanged — its only effect is the
handler's unconditional cosmetic reset of the drop-zone highlight styles. -/
theorem c9_empty_file_list_no_selection (p : PageState) :
    step p (Event.change []) = (p, []) ∧
    (step p (Event.drop [])).2 = [] ∧
    (step p (Event.drop [])).1.dom =
      { p.dom with dropZoneBackground := "#f8f9fa", dropZoneBorder := "#3498db" } ∧
    (step p (Event.drop [])).1.inFlight = p.inFlight := by
  refine ⟨?_, ?_, ?_, ?_⟩ <;> simp [step]

/-- C10: the selection routine never touches rendering or progress state:
for every call the score text, gauge width, interpretation, feature list,
result visibility and loading indicator are unchanged; an accepted call
changes exactly the held file, the label text and the button flag, and a
rejected call changes nothing at all. -/
theorem c10_selection_frame (f : JsFile) (s : DomState) :
    (handleFileSelection f s).1.scoreValueText = s.scoreValueText ∧
    (handleFileSelection f s).1.scoreFillWidth = s.scoreFillWidth ∧
    (handleFileSelection f s).1.interpretationText = s.interpretationText ∧
    (handleFileSelection f s).1.featuresChildren = s.featuresChildren ∧
    (handleFileSelection f s).1.resultDisplay = s.resultDisplay ∧
    (handleFileSelection f s).1.loadingDisplay = s.loadingDisplay ∧
    (strStartsWith f.ftype "audio/" = true →
      (handleFileSelection f s).1 =
        { s with
            currentFile := some f
            selectedFileText := "Selected file: " ++ f.name
            analyzeBtnDisabled := false }) ∧
    (strStartsWith f.ftype "audio/" = false → (handleFileSelection f s).1 = s) := by
  by_cases h : strStartsWith f.ftype "audio/" = true
  · refine ⟨?_, ?_, ?_, ?_, ?_, ?_, ?_, ?_⟩ <;> simp [handleFileSelection, h]
  · have h' : strStartsWith f.ftype "audio/" = false := by simpa using h
    refine ⟨?_, ?_, ?_, ?_, ?_, ?_, ?_, ?_⟩ <;> simp [handleFileSelection, h']

/-- C10 witness: the accepted selection of `wavFile` from `baseDom` changes
exactly the three selection fields. -/
theorem c10_selection_frame_witness :
    strStartsWith wavFile.ftype "audio/" = true ∧
    (handleFileSelection wavFile baseDom).1 =
      { baseDom with
          currentFile := some wavFile
          selectedFileText := "Selected file: " ++ wavFile.name
          analyzeBtnDisabled := false } :=
  ⟨by decide, (c10_selection_frame wavFile baseDom).2.2.2.2.2.2.1 (by decide)⟩

/-- C2 counterexample: from the concrete state `visiblePage`, whose result
container is visible (`display = "block"`), a submission answered by
`{success: false, error: "bad file"}` raises the alert containing
`bad file`, but the prior result's visibility does not remain unchanged:
the result container ends hidden (`display = "none"`), because the click
handler hid it when the submission started and the failure path never
re-shows it. -/
theorem c2_failed_submission_hides_result :
    visiblePage.dom.resultDisplay = "block" ∧
    (submitExchange visiblePage (FetchOutcome.ok failData)).2 =
      [Effect.alert "Error processing file: bad file"] ∧
    (submitExchange visiblePage (FetchOutcome.ok failData)).1.dom.resultDisplay = "none" := by
  refine ⟨by decide, by decide, by decide⟩

/-- C2 (amended): a submission answered by a well-formed JSON body with a
falsy success indicator leaves the previously rendered content — score
text, gauge fill, interpretation label and feature bars — unchanged, emits
exactly one blocking alert whose text is the server message
(`errors` when truthy, else `error`), and performs no partial rendering;
however the result container, hidden when the submission started, stays
hidden, so the prior result's visibility does change when it was showing. -/
theorem c2_server_failure_preserves_render (p : PageState) (d : ServerData)
    (hbtn : p.dom.analyzeBtnDisabled = false)
    (hfile : p.dom.currentFile.isSome = true)
    (hs : d.success = false) :
    (submitExchange p (FetchOutcome.ok d)).1.dom.scoreValueText = p.dom.scoreValueText ∧
    (submitExchange p (FetchOutcome.ok d)).1.dom.scoreFillWidth = p.dom.scoreFillWidth ∧
    (submitExchange p (FetchOutcome.ok d)).1.dom.interpretationText = p.dom.interpretationText ∧
    (submitExchange p (FetchOutcome.ok d)).1.dom.featuresChildren = p.dom.featuresChildren ∧
    (submitExchange p (FetchOutcome.ok d)).1.dom.resultDisplay = "none" ∧
    (submitExchange p (FetchOutcome.ok d)).2 =
      [Effect.alert ("Error processing file: " ++ jsOrText d.errors d.error)] := by
  obtain ⟨f, hf⟩ := Option.isSome_iff_exists.mp hfile
  refine ⟨?_, ?_, ?_, ?_, ?_, ?_⟩ <;>
    simp [submitExchange, step, hbtn, hf, resolveFetch, hs]

/-- C2 witness: the server rejection `failData` received from the concrete
state `visiblePage` leaves the rendered score text and feature bars as they
were. -/
theorem c2_server_failure_preserves_render_witness :
    visiblePage.dom.analyzeBtnDisabled = false ∧
    visiblePage.dom.currentFile.isSome = true ∧
    failData.success = false ∧
    (submitExchange visiblePage (FetchOutcome.ok failData)).1.dom.scoreValueText = "0.75" ∧
    (submitExchange visiblePage (FetchOutcome.ok failData)).1.dom.featuresChildren =
      [{ displayName := "Pitch Variance", percentText := "40.0%", fillWidth := 40 }] := by
  have h := c2_server_failure_preserves_render visiblePage failData
    (by decide) (by decide) (by decide)
  exact ⟨by decide, by decide, by decide, h.1, h.2.2.2.1⟩

/-- C3: whatever way the exchange settles — a rendered success, a server
rejection, a malformed body or a network failure — the `.finally`
continuation runs: the loading indicator ends hidden and the analyze button
ends re-enabled; moreover both failure classes end in a user-facing alert
(`.catch` absorbing transport and parse errors after logging to the
console), so no error escapes the pipeline. -/
theorem c3_cleanup_always (s : DomState) (o : FetchOutcome) :
    (resolveFetch s o).1.loadingDisplay = "none" ∧
    (resolveFetch s o).1.analyzeBtnDisabled = false ∧
    (o = FetchOutcome.jsonError ∨ o = FetchOutcome.networkError →
      (resolveFetch s o).2 =
        [Effect.consoleError, Effect.alert "An error occurred while processing the file."]) ∧
    (∀ d, o = FetchOutcome.ok d → d.success = false →
      (resolveFetch s o).2 =
        [Effect.alert ("Error processing file: " ++ jsOrText d.errors d.error)]) := by
  refine ⟨?_, ?_, ?_, ?_⟩
  · cases o <;> rfl
  · cases o <;> rfl
  · rintro (rfl | rfl) <;> rfl
  · rintro d rfl hs
    simp [resolveFetch, hs]

/-- C3 witness: the cleanup and the generic alert at the concrete state
`visibleDom` on a network failure. -/
theorem c3_cleanup_always_witness :
    (resolveFetch visibleDom FetchOutcome.networkError).1.loadingDisplay = "none" ∧
    (resolveFetch visibleDom FetchOutcome.networkError).1.analyzeBtnDisabled = false ∧
    (resolveFetch visibleDom FetchOutcome.networkError).2 =
      [Effect.consoleError, Effect.alert "An error occurred while processing the file."] :=
  ⟨(c3_cleanup_always visibleDom FetchOutcome.networkError).1,
   (c3_cleanup_always visibleDom FetchOutcome.networkError).2.1,
   (c3_cleanup_always visibleDom FetchOutcome.networkError).2.2.1 (Or.inr rfl)⟩

/-- C4: for every score in `[0, 1]` the render assigns the interpretation
via `scoreLabel`, which yields `Low Stress` exactly on `[0, 0.3)`,
`Moderate Stress` exactly on `[0.3, 0.6)` and `High Stress` exactly on
`[0.6, 1]`; in particular 0.29 is Low, 0.3 and 0.59 Moderate, 0.6 and 1.0
High (`mkRat a b` is `a / b`). -/
theorem c4_interpretation_tiers (q : ℚ) (features : List (String × ℚ)) (s : DomState)
    (h0 : 0 ≤ q) (h1 : q ≤ 1) :
    (updateResults q features s).interpretationText = scoreLabel q ∧
    (scoreLabel q = "Low Stress" ↔ q < mkRat 3 10) ∧
    (scoreLabel q = "Moderate Stress" ↔ mkRat 3 10 ≤ q ∧ q < mkRat 6 10) ∧
    (scoreLabel q = "High Stress" ↔ mkRat 6 10 ≤ q) ∧
    scoreLabel (mkRat 29 100) = "Low Stress" ∧
    scoreLabel (mkRat 3 10) = "Moderate Stress" ∧
    scoreLabel (mkRat 59 100) = "Moderate Stress" ∧
    scoreLabel (mkRat 6 10) = "High Stress" ∧
    scoreLabel 1 = "High Stress" := by
  refine ⟨rfl, ?_, ?_, ?_, by decide, by decide, by decide, by decide, by decide⟩
  · constructor
    · intro heq
      by_contra hlt
      have hne : scoreLabel q ≠ "Low Stress" := by
        unfold scoreLabel
        rw [if_neg hlt]
        split
        · decide
        · decide
      exact hne heq
    · intro hlt
      unfold scoreLabel
      rw [if_pos hlt]
  · constructor
    · intro heq
      unfold scoreLabel at heq
      by_cases h3 : q < mkRat 3 10
      · rw [if_pos h3] at heq
        exact absurd heq (by decide)
      · rw [if_neg h3] at heq
        by_cases h6 : q < mkRat 6 10
        · exact ⟨not_lt.mp h3, h6⟩
        · rw [if_neg h6] at heq
          exact absurd heq (by decide)
    · rintro ⟨hge, hlt⟩
      unfold scoreLabel
      rw [if_neg (not_lt.mpr hge), if_pos hlt]
  · constructor
    · intro heq
      unfold scoreLabel at heq
      by_cases h3 : q < mkRat 3 10
      · rw [if_pos h3] at heq
        exact absurd heq (by decide)
      · rw [if_neg h3] at heq
        by_cases h6 : q < mkRat 6 10
        · rw [if_pos h6] at heq
          exact absurd heq (by decide)
        · exact not_lt.mp h6
    · intro hge
      unfold scoreLabel
      rw [if_neg (not_lt.mpr (le_trans (by decide) hge)), if_neg (not_lt.mpr hge)]

/-- C4 witness: the boundary score 0.3 lies in `[0, 1]` and is labelled
`Moderate Stress`. -/
theorem c4_interpretation_tiers_witness :
    (0 : ℚ) ≤ mkRat 3 10 ∧ (mkRat 3 10 : ℚ) ≤ 1 ∧
    scoreLabel (mkRat 3 10) = "Moderate Stress" :=
  ⟨by decide, by decide,
    (c4_interpretation_tiers (mkRat 3 10) [] baseDom (by decide) (by decide)).2.2.2.2.2.1⟩

/-- C6: for every score in `[0, 1]` and feature mapping, the render shows
the score at two-decimal precision and a gauge width of `score * 100`
percent, and per feature the humanized key (underscores to spaces, each
word's first letter capitalized), the contribution at one-decimal
percentage precision, and an unclamped fill width of `contribution * 100`
percent; concretely, score 0.75 with `{pitch_variance: 0.4}` renders
`0.75`, gauge 75, `High Stress` and `Pitch Variance` at `40.0%`, and a
contribution of 1.5 passes through as width 150. -/
theorem c6_render_values (score : ℚ) (features : List (String × ℚ)) (s : DomState)
    (h0 : 0 ≤ score) (h1 : score ≤ 1) :
    (updateResults score features s).scoreValueText = qToFixed 2 score ∧
    (updateResults score features s).scoreFillWidth = score * 100 ∧
    (updateResults score features s).featuresChildren.map FeatureView.displayName =
      features.map (fun kv => humanize kv.1) ∧
    (updateResults score features s).featuresChildren.map FeatureView.percentText =
      features.map (fun kv => qToFixed 1 (qMulNat kv.2 100) ++ "%") ∧
    (updateResults score features s).featuresChildren.map FeatureView.fillWidth =
      features.map (fun kv => kv.2 * 100) ∧
    (updateResults (mkRat 3 4) [("pitch_variance", mkRat 2 5)] s).scoreValueText = "0.75" ∧
    (updateResults (mkRat 3 4) [("pitch_variance", mkRat 2 5)] s).scoreFillWidth = 75 ∧
    (updateResults (mkRat 3 4) [("pitch_variance", mkRat 2 5)] s).interpretationText =
      "High Stress" ∧
    (updateResults (mkRat 3 4) [("pitch_variance", mkRat 2 5)] s).featuresChildren =
      [{ displayName := "Pitch Variance", percentText := "40.0%", fillWidth := 40 }] ∧
    (updateResults score [("loudness", mkRat 3 2)] s).featuresChildren.map
      FeatureView.fillWidth = [150] := by
  refine ⟨rfl, ?_, ?_, ?_, ?_, ?_, ?_, ?_, ?_, ?_⟩
  · show qMulNat score 100 = score * 100
    rw [qMulNat_eq]
    norm_num
  · simp [updateResults, renderFeature]
  · simp [updateResults, renderFeature]
  · simp only [updateResults, List.map_map]
    refine List.map_congr_left ?_
    intro kv _
    show qMulNat kv.2 100 = kv.2 * 100
    rw [qMulNat_eq]
    norm_num
  · show qToFixed 2 (mkRat 3 4) = "0.75"
    decide
  · show qMulNat (mkRat 3 4) 100 = 75
    decide
  · show scoreLabel (mkRat 3 4) = "High Stress"
    decide
  · show [("pitch_variance", mkRat 2 5)].map renderFeature =
      [{ displayName := "Pitch Variance", percentText := "40.0%", fillWidth := 40 }]
    decide
  · show ([("loudness", mkRat 3 2)].map renderFeature).map FeatureView.fillWidth = [150]
    decide

/-- C6 witness: the score 0.75 lies in `[0, 1]` and renders text `0.75`
with gauge width 75. -/
theorem c6_render_values_witness :
    (0 : ℚ) ≤ mkRat 3 4 ∧ (mkRat 3 4 : ℚ) ≤ 1 ∧
    (updateResults (mkRat 3 4) [("pitch_variance", mkRat 2 5)] baseDom).scoreValueText =
      "0.75" :=
  ⟨by decide, by decide,
    (c6_render_values (mkRat 3 4) [("pitch_variance", mkRat 2 5)] baseDom
      (by decide) (by decide)).2.2.2.2.2.1⟩
